import Mathlib

/-!
Shallow embedding of the smart-todo task tracker (src/smart_todo/cli.py).

Conventions of the embedding:
* Python `datetime` values are represented by rationals (`ℚ`), measuring
  hours; `hours_until_deadline` is the parsed deadline minus "now".
* The lenient date parse of the external `dateutil` collaborator is an
  arbitrary function `parse : String → Option ℚ` (`none` models a raised
  parse error, `some h` a deadline lying `h` hours from now); the theorems
  quantify over it.
* Python floats are represented by exact rationals.
* The task list held by `TodoManager` is a `List Task`; the mutating
  methods become functions `List Task → ... → List Task`.
* The remote recommendation collaborator is represented by an
  `Option String` argument: `none` models the call raising (unreachable
  service), `some reply` models a returned reply text.
-/

namespace SmartTodo

/-- The `Task` class: one to-do item.  Field names and defaults follow
`Task.__init__` in `cli.py` (the constructor always starts with
`completed = False`, `status = "Not Started"`, `suggestion_reason = ""`). -/
structure Task where
  title : String
  description : String
  deadline : String
  priority : Int := 1
  mood_required : String := "any"
  effort : String := "Medium"
  difficulty : String := "Medium"
  energy_required : String := "Medium"
  completed : Bool := false
  status : String := "Not Started"
  suggestion_reason : String := ""
  deriving DecidableEq, Repr

/-- Base urgency by time bucket, from `Task.calculate_urgency_score`:
`h ≤ 24 → 100`, `h ≤ 48 → 80`, `h ≤ 72 → 60`, otherwise
`max(10, 100 - h/24)`. -/
def urgency_base (h : ℚ) : ℚ :=
  if h ≤ 24 then 100
  else if h ≤ 48 then 80
  else if h ≤ 72 then 60
  else max 10 (100 - h / 24)

/-- The priority multiplier table `{1: 0.8, 2: 1.0, 3: 1.2}` read with
`.get(priority, 1.0)`: any unmapped priority gets `1.0`. -/
def priority_multiplier (p : Int) : ℚ :=
  if p = 1 then 0.8
  else if p = 2 then 1.0
  else if p = 3 then 1.2
  else 1.0

/-- `Task.calculate_urgency_score`.  The argument is the parsed
`hours_until_deadline`; `none` models the `except:` branch taken when the
stored deadline string does not parse, which returns the fixed value `10`.
Otherwise the bucket value is scaled by the priority multiplier and capped
with `min(100, urgency)`. -/
def calculate_urgency_score : Option ℚ → Int → ℚ
  | none, _ => 10
  | some h, p => min 100 (urgency_base h * priority_multiplier p)

/-- The persisted record produced by `Task.to_dict` and consumed by
`Task.from_dict`.  `to_dict` always writes all ten fields; `from_dict` reads
the last six with `dict.get(key, default)`, so those are `Option`s here
(`none` models a key missing from a hand-edited record).  There is no
`suggestion_reason` field: it is never persisted. -/
structure TaskDict where
  title : String
  description : String
  deadline : String
  priority : Int
  mood_required : Option String
  effort : Option String
  difficulty : Option String
  energy_required : Option String
  completed : Option Bool
  status : Option String
  deriving DecidableEq, Repr

/-- `Task.to_dict`: serialize every persisted field. -/
def Task.to_dict (t : Task) : TaskDict :=
  { title := t.title
    description := t.description
    deadline := t.deadline
    priority := t.priority
    mood_required := some t.mood_required
    effort := some t.effort
    difficulty := some t.difficulty
    energy_required := some t.energy_required
    completed := some t.completed
    status := some t.status }

/-- `Task.from_dict`: rebuild a task, defaulting the optional fields exactly
as the `data.get(...)` calls do; the constructor leaves
`suggestion_reason = ""`. -/
def Task.from_dict (d : TaskDict) : Task :=
  { title := d.title
    description := d.description
    deadline := d.deadline
    priority := d.priority
    mood_required := d.mood_required.getD "any"
    effort := d.effort.getD "Medium"
    difficulty := d.difficulty.getD "Medium"
    energy_required := d.energy_required.getD "Medium"
    completed := d.completed.getD false
    status := d.status.getD "Not Started"
    suggestion_reason := "" }

/-- `TodoManager.add_task`: append the task to the list (the subsequent
`save_tasks` call only persists, it does not change the list). -/
def add_task (tasks : List Task) (t : Task) : List Task :=
  tasks ++ [t]

/-- `TodoManager.mark_completed`: set `completed := true` on the first task
whose title equals `title` (the loop breaks after the first match) and leave
everything else — including that task's `status` — unchanged. -/
def mark_completed : List Task → String → List Task
  | [], _ => []
  | t :: ts, title =>
    if t.title = title then { t with completed := true } :: ts
    else t :: mark_completed ts title

/-- `TodoManager.update_task_status`: on the first title match, set
`status := new_status` and, only when `new_status = "Completed"`, also set
`completed := true`; the loop breaks after the first match. -/
def update_task_status : List Task → String → String → List Task
  | [], _, _ => []
  | t :: ts, title, new_status =>
    if t.title = title then
      { t with
        completed := if new_status = "Completed" then true else t.completed
        status := new_status } :: ts
    else t :: update_task_status ts title new_status

/-- Index of the first task whose title equals `title`, mirroring the
first-match-wins linear scans of `mark_completed` and
`update_task_status`. -/
def find_task_index : List Task → String → Option Nat
  | [], _ => none
  | t :: ts, title =>
    if t.title = title then some 0
    else (find_task_index ts title).map (· + 1)

/-- The two-way invariant claimed by the spec's data model: `completed` is
true exactly when `status` is `"Completed"`. -/
def completed_status_consistent (tasks : List Task) : Prop :=
  ∀ t ∈ tasks, (t.completed = true ↔ t.status = "Completed")

/-- The direction of the invariant the code actually maintains:
`status = "Completed"` implies `completed = true`. -/
def status_implies_completed (tasks : List Task) : Prop :=
  ∀ t ∈ tasks, t.status = "Completed" → t.completed = true

instance (tasks : List Task) : Decidable (completed_status_consistent tasks) :=
  List.decidableBAll _ tasks

instance (tasks : List Task) : Decidable (status_implies_completed tasks) :=
  List.decidableBAll _ tasks

/-- The candidate filter at the top of `TodoManager.get_suggested_task`:
keep the tasks with `not task.completed and task.status != "Completed"`. -/
def available_tasks (tasks : List Task) : List Task :=
  tasks.filter (fun t => !t.completed && t.status != "Completed")

/-- The `tasks_info` loop parses every candidate's deadline before the
`try:` block, so one unparseable deadline aborts the whole operation; this
traversal returns `none` in that case. -/
def candidate_deadlines (parse : String → Option ℚ) :
    List Task → Option (List ℚ)
  | [] => some []
  | t :: ts =>
    match parse t.deadline, candidate_deadlines parse ts with
    | some d, some ds => some (d :: ds)
    | _, _ => none

/-- Comparison used by the fallback `available_tasks.sort(key=lambda x:
(parse(x.deadline), -x.priority))`: parsed deadline ascending, then
priority descending.  The catch-all branch (a deadline failing to parse
inside the sort) is unreachable in `get_suggested_task`, which only sorts
after `candidate_deadlines` succeeded. -/
def fallback_le (parse : String → Option ℚ) (a b : Task) : Bool :=
  match parse a.deadline, parse b.deadline with
  | some da, some db =>
    decide (da < db) || (decide (da = db) && decide (b.priority ≤ a.priority))
  | _, _ => true

/-- The deterministic fallback: stable-sort the candidates by
`(parsed deadline ascending, priority descending)` (Python's `list.sort`
is stable, as is `List.mergeSort`) and take the first element. -/
def fallback_suggestion (parse : String → Option ℚ) (l : List Task) :
    Option Task :=
  (l.mergeSort (fallback_le parse)).head?

/-- Parsing of the collaborator reply: scan the lines of the stripped
reply; a line starting with `TASK:` overwrites the task line (tag removed,
stripped), a line starting with `REASON:` overwrites the reason. -/
def parse_ai_reply (resp : String) : String × String :=
  (resp.trim.splitOn "\n").foldl
    (fun acc line =>
      if line.startsWith "TASK:" then ((line.replace "TASK:" "").trim, acc.2)
      else if line.startsWith "REASON:" then
        (acc.1, (line.replace "REASON:" "").trim)
      else acc)
    ("", "")

/-- Substring containment on character lists, modelling Python's
`needle in hay`. -/
def is_substring_of : List Char → List Char → Bool
  | needle, [] => needle.isEmpty
  | needle, hay@(_ :: rest) =>
    needle.isPrefixOf hay || is_substring_of needle rest

/-- The title match of step 4: `task.title.lower() in task_line.lower()`. -/
def title_matches (t : Task) (task_line : String) : Bool :=
  is_substring_of t.title.toLower.data task_line.toLower.data

/-- First candidate (in candidate order) whose lowercased title is a
substring of the lowercased task line. -/
def find_matching_task (candidates : List Task) (task_line : String) :
    Option Task :=
  candidates.find? (fun t => title_matches t task_line)

/-- `TodoManager.get_suggested_task`.  `parse` stands for the date parse of
the external date library; `ai_reply` for the outcome of the remote
recommendation call (`none` = the call raised).  The `Except` layer records
the one way the Python function can raise to its caller: the deadline
parses in the `tasks_info` loop run before the `try:` block.  All paths
inside the `try:` end in `Except.ok`: a matched title returns that task
with the reason attached, and a failed call, a malformed reply or an
unmatched title all fall back to the deterministic sort. -/
def get_suggested_task (parse : String → Option ℚ) (tasks : List Task)
    (ai_reply : Option String) : Except String (Option Task) :=
  if (available_tasks tasks).isEmpty then Except.ok none
  else
    match candidate_deadlines parse (available_tasks tasks) with
    | none => Except.error "unparseable deadline"
    | some _ =>
      match ai_reply with
      | none => Except.ok (fallback_suggestion parse (available_tasks tasks))
      | some resp =>
        match find_matching_task (available_tasks tasks)
            (parse_ai_reply resp).1 with
        | some t =>
          Except.ok (some { t with suggestion_reason := (parse_ai_reply resp).2 })
        | none => Except.ok (fallback_suggestion parse (available_tasks tasks))

/-- Demo task for concrete witnesses: freshly constructed, so
`completed = false` and `status = "Not Started"`. -/
def report_task : Task :=
  { title := "Write report", description := "weekly report",
    deadline := "2025-01-10 17:00" }

/-- Demo task exercising the store mutations and the suggestion engine. -/
def task_alpha : Task :=
  { title := "Alpha", description := "write intro", deadline := "d1",
    priority := 2 }

/-- Second demo task, matched by title in the C8 witness. -/
def task_beta : Task :=
  { title := "Beta", description := "make plan", deadline := "d2",
    priority := 3 }

/-- Demo task that is already completed, for the C10 witness. -/
def task_done : Task :=
  { title := "Gamma", description := "done already", deadline := "d3",
    completed := true, status := "Completed" }

/-- Demo task whose stored deadline the demo date parse rejects. -/
def garbage_task : Task :=
  { title := "Corrupted", description := "hand-edited record",
    deadline := "garbage" }

/-- Concrete stand-in for the external date parse, used by witnesses:
knows the three demo deadlines and rejects everything else. -/
def demo_parse : String → Option ℚ
  | "d1" => some 10
  | "d2" => some 50
  | "d3" => some 50
  | _ => none

/-- A collaborator reply whose suggested title matches no demo task. -/
def demo_resp : String := "TASK: Unknown thing\nREASON: because"

/-- The bucket value is always at least 10. -/
theorem urgency_base_ge_ten (h : ℚ) : 10 ≤ urgency_base h := by
  unfold urgency_base
  split_ifs <;> norm_num

/-- The priority multiplier is between 4/5 and 6/5. -/
theorem priority_multiplier_bounds (p : Int) :
    4/5 ≤ priority_multiplier p ∧ priority_multiplier p ≤ 6/5 := by
  unfold priority_multiplier
  split_ifs <;> norm_num

/-- `mark_completed` rewrites the first matching task to the same task with
`completed := true` (its status untouched). -/
theorem mark_completed_get (tasks : List Task) (title : String) (i : Nat)
    (t : Task) (hfind : find_task_index tasks title = some i)
    (hget : tasks[i]? = some t) :
    (mark_completed tasks title)[i]? = some { t with completed := true } := by
  induction tasks generalizing i with
  | nil => simp [find_task_index] at hfind
  | cons a l ih =>
    by_cases hA : a.title = title
    · simp only [find_task_index, if_pos hA, Option.some.injEq] at hfind
      subst hfind
      simp only [List.getElem?_cons_zero, Option.some.injEq] at hget
      subst hget
      simp [mark_completed, if_pos hA]
    · simp only [find_task_index, if_neg hA, Option.map_eq_some'] at hfind
      obtain ⟨j, hj, rfl⟩ := hfind
      simp only [List.getElem?_cons_succ] at hget
      simpa [mark_completed, if_neg hA] using ih j hj hget

/-- `update_task_status` rewrites the first matching task to the same task
with the new status, setting `completed` only for `"Completed"`. -/
theorem update_task_status_get (tasks : List Task) (title new_status : String)
    (i : Nat) (t : Task) (hfind : find_task_index tasks title = some i)
    (hget : tasks[i]? = some t) :
    (update_task_status tasks title new_status)[i]? =
      some { t with
             completed := if new_status = "Completed" then true else t.completed
             status := new_status } := by
  induction tasks generalizing i with
  | nil => simp [find_task_index] at hfind
  | cons a l ih =>
    by_cases hA : a.title = title
    · simp only [find_task_index, if_pos hA, Option.some.injEq] at hfind
      subst hfind
      simp only [List.getElem?_cons_zero, Option.some.injEq] at hget
      subst hget
      simp [update_task_status, if_pos hA]
    · simp only [find_task_index, if_neg hA, Option.map_eq_some'] at hfind
      obtain ⟨j, hj, rfl⟩ := hfind
      simp only [List.getElem?_cons_succ] at hget
      simpa [update_task_status, if_neg hA] using ih j hj hget

/-- `mark_completed` never touches any task's status. -/
theorem mark_completed_status_frame (tasks : List Task) (title : String) :
    (mark_completed tasks title).map Task.status = tasks.map Task.status := by
  induction tasks with
  | nil => rfl
  | cons a l ih =>
    by_cases hA : a.title = title <;>
      simp [mark_completed, hA, ih]

/-- For a non-"Completed" status, `update_task_status` never touches any
task's completed flag. -/
theorem update_status_completed_frame (tasks : List Task) (title s : String)
    (hs : s ≠ "Completed") :
    (update_task_status tasks title s).map Task.completed =
      tasks.map Task.completed := by
  induction tasks with
  | nil => rfl
  | cons a l ih =>
    by_cases hA : a.title = title <;>
      simp [update_task_status, hA, hs, ih]

/-- If every candidate deadline parses, the `tasks_info` traversal
succeeds. -/
theorem candidate_deadlines_isSome (parse : String → Option ℚ)
    (l : List Task) (h : ∀ t ∈ l, (parse t.deadline).isSome) :
    ∃ ds, candidate_deadlines parse l = some ds := by
  induction l with
  | nil => exact ⟨[], rfl⟩
  | cons a l ih =>
    obtain ⟨d, hd⟩ := Option.isSome_iff_exists.mp (h a (by simp))
    obtain ⟨ds, hds⟩ := ih (fun u hu => h u (by simp [hu]))
    exact ⟨d :: ds, by simp [candidate_deadlines, hd, hds]⟩

/-- C1: with the recommendation collaborator failing (`ai_reply = none`) —
or replying with a title matching no candidate — `get_suggested_task`
returns exactly the deterministic fallback applied to the filtered
candidate set, hence two runs on the same task data agree. -/
theorem suggest_fallback_deterministic (parse : String → Option ℚ)
    (tasks : List Task)
    (h : ∀ t ∈ available_tasks tasks, (parse t.deadline).isSome) :
    get_suggested_task parse tasks none =
      Except.ok (fallback_suggestion parse (available_tasks tasks)) ∧
    get_suggested_task parse tasks none = get_suggested_task parse tasks none ∧
    ∀ resp,
      find_matching_task (available_tasks tasks) (parse_ai_reply resp).1 = none →
      get_suggested_task parse tasks (some resp) =
        Except.ok (fallback_suggestion parse (available_tasks tasks)) := by
  by_cases hE : (available_tasks tasks).isEmpty
  · have hnil : available_tasks tasks = [] := List.isEmpty_iff.mp hE
    refine ⟨?_, rfl, ?_⟩
    · simp [get_suggested_task, hE, fallback_suggestion, hnil]
    · intro resp _
      simp [get_suggested_task, hE, fallback_suggestion, hnil]
  · obtain ⟨ds, hds⟩ := candidate_deadlines_isSome parse (available_tasks tasks) h
    refine ⟨?_, rfl, ?_⟩
    · simp [get_suggested_task, hE, hds]
    · intro resp hfind
      simp [get_suggested_task, hE, hds, hfind]

/-- C1 (witness): the fallback equality at a concrete parse, task list, and
no-match reply. -/
theorem suggest_fallback_deterministic_witness :
    (∀ t ∈ available_tasks [task_alpha, task_beta],
      (demo_parse t.deadline).isSome) ∧
    get_suggested_task demo_parse [task_alpha, task_beta] none =
      Except.ok
        (fallback_suggestion demo_parse (available_tasks [task_alpha, task_beta])) :=
  ⟨by decide,
   (suggest_fallback_deterministic demo_parse [task_alpha, task_beta]
      (by decide)).1⟩

/-- C2 (counterexample): the suggest operation can fail the caller: one
candidate task with an unparseable stored deadline makes the `tasks_info`
loop raise before the `try:` block is entered, so no fallback runs. -/
theorem suggest_raises_counterexample :
    get_suggested_task demo_parse [garbage_task] none =
      Except.error "unparseable deadline" := rfl

/-- C2 (amended): provided every candidate task's deadline parses, the
suggest operation never fails the caller — for every task list, mood and
collaborator outcome (failure, or any reply text) it returns a task or the
no-suggestion value. -/
theorem suggest_total_on_parseable (parse : String → Option ℚ)
    (tasks : List Task) (ai_reply : Option String)
    (h : ∀ t ∈ available_tasks tasks, (parse t.deadline).isSome) :
    ∃ v, get_suggested_task parse tasks ai_reply = Except.ok v := by
  by_cases hE : (available_tasks tasks).isEmpty
  · exact ⟨none, by simp [get_suggested_task, hE]⟩
  · obtain ⟨ds, hds⟩ := candidate_deadlines_isSome parse (available_tasks tasks) h
    cases ai_reply with
    | none =>
      exact ⟨fallback_suggestion parse (available_tasks tasks),
        by simp [get_suggested_task, hE, hds]⟩
    | some resp =>
      cases hf : find_matching_task (available_tasks tasks)
          (parse_ai_reply resp).1 with
      | none =>
        exact ⟨fallback_suggestion parse (available_tasks tasks),
          by simp [get_suggested_task, hE, hds, hf]⟩
      | some t =>
        exact ⟨some { t with suggestion_reason := (parse_ai_reply resp).2 },
          by simp [get_suggested_task, hE, hds, hf]⟩

/-- C2 (witness): totality at a concrete parse, task list and reply. -/
theorem suggest_total_on_parseable_witness :
    (∀ t ∈ available_tasks [task_alpha, task_beta],
      (demo_parse t.deadline).isSome) ∧
    ∃ v, get_suggested_task demo_parse [task_alpha, task_beta]
        (some demo_resp) = Except.ok v :=
  ⟨by decide,
   suggest_total_on_parseable demo_parse [task_alpha, task_beta]
     (some demo_resp) (by decide)⟩

/-- C3 (counterexample): the claim "the urgency score lies in [10, 100] for
every deadline and priority" fails: a priority-1 task 2400 hours from its
deadline scores `max(10, 100 - 100) * 0.8 = 8 < 10`. -/
theorem score_below_ten_counterexample :
    calculate_urgency_score (some 2400) 1 < 10 := by
  unfold calculate_urgency_score urgency_base priority_multiplier
  norm_num

/-- C3 (amended): for every parsed-hours value (or parse failure) and every
priority, the urgency score lies in the closed interval [8, 100].  The lower
endpoint 8 (not 10) is attained by priority 1 with the decay floor:
`10 * 0.8 = 8`. -/
theorem score_in_bounds (hd : Option ℚ) (p : Int) :
    8 ≤ calculate_urgency_score hd p ∧ calculate_urgency_score hd p ≤ 100 := by
  cases hd with
  | none =>
    unfold calculate_urgency_score
    norm_num
  | some h =>
    have hb : 10 ≤ urgency_base h := urgency_base_ge_ten h
    have hm : 4/5 ≤ priority_multiplier p := (priority_multiplier_bounds p).1
    unfold calculate_urgency_score
    refine ⟨le_min (by norm_num) ?_, min_le_left _ _⟩
    nlinarith

/-- C4 (counterexample): the score is not monotonically non-increasing for
hours beyond 24: at priority 2 the score at 60 hours is 60, while at 73
hours the decay formula restarts near 100 and gives 2327/24 ≈ 96.96. -/
theorem score_not_monotone_counterexample :
    (24 : ℚ) < 60 ∧ (60 : ℚ) ≤ 73 ∧
    calculate_urgency_score (some 60) 2 < calculate_urgency_score (some 73) 2 := by
  unfold calculate_urgency_score urgency_base priority_multiplier
  norm_num

/-- C4 (amended): for priorities 1–4 the score is monotonically
non-increasing in the hours-until-deadline on each side of the 72-hour
boundary: whenever `24 < h1 ≤ h2` and the pair does not straddle 72
(`h2 ≤ 72` or `72 < h1`), the score at `h1` is at least the score at `h2`.
Monotonicity fails only across 72, where the decay bucket jumps back up. -/
theorem score_monotone_piecewise (p : Int) (h1 h2 : ℚ)
    (_hp : p = 1 ∨ p = 2 ∨ p = 3 ∨ p = 4)
    (ha : 24 < h1) (hb : h1 ≤ h2) (hc : h2 ≤ 72 ∨ 72 < h1) :
    calculate_urgency_score (some h2) p ≤ calculate_urgency_score (some h1) p := by
  have hm : 0 ≤ priority_multiplier p :=
    le_trans (by norm_num) (priority_multiplier_bounds p).1
  have hbase : urgency_base h2 ≤ urgency_base h1 := by
    unfold urgency_base
    rcases hc with hc | hc <;>
      split_ifs <;>
        first
          | linarith
          | exact max_le_max le_rfl (by linarith)
  unfold calculate_urgency_score
  exact min_le_min le_rfl (mul_le_mul_of_nonneg_right hbase hm)

/-- C4 (witness): concrete instance of the piecewise monotonicity at
priority 2, hours 30 and 40. -/
theorem score_monotone_piecewise_witness :
    (24 : ℚ) < 30 ∧
    calculate_urgency_score (some 40) 2 ≤ calculate_urgency_score (some 30) 2 :=
  ⟨by norm_num,
   score_monotone_piecewise 2 30 40 (Or.inr (Or.inl rfl)) (by norm_num)
     (by norm_num) (Or.inl (by norm_num))⟩

/-- C5: an overdue task (negative hours until the deadline) falls in the
`≤ 24` bucket, so its score is `100 * priorityMultiplier`, capped at 100. -/
theorem overdue_score (h : ℚ) (p : Int) (hh : h < 0) :
    calculate_urgency_score (some h) p = min 100 (100 * priority_multiplier p) := by
  show min 100 (urgency_base h * priority_multiplier p) = _
  unfold urgency_base
  rw [if_pos (by linarith : h ≤ 24)]

/-- C5 (witness): concrete overdue instance at 5 hours past the deadline,
priority 3. -/
theorem overdue_score_witness :
    (-5 : ℚ) < 0 ∧
    calculate_urgency_score (some (-5)) 3 = min 100 (100 * priority_multiplier 3) :=
  ⟨by norm_num, overdue_score (-5) 3 (by norm_num)⟩

/-- C6: the multiplier table maps priority 1 to 0.8, 2 to 1.0, 3 to 1.2 and
every other priority (4 included) to 1.0; consequently a priority-4 task
scores exactly like a priority-2 task with the same deadline. -/
theorem priority_multiplier_table (p : Int) (hd : Option ℚ)
    (h1 : p ≠ 1) (h2 : p ≠ 2) (h3 : p ≠ 3) :
    priority_multiplier 1 = 0.8 ∧ priority_multiplier 2 = 1.0 ∧
    priority_multiplier 3 = 1.2 ∧ priority_multiplier p = 1.0 ∧
    calculate_urgency_score hd 4 = calculate_urgency_score hd 2 := by
  refine ⟨rfl, rfl, rfl, ?_, ?_⟩
  · unfold priority_multiplier
    rw [if_neg h1, if_neg h2, if_neg h3]
  · cases hd <;> rfl

/-- C6 (witness): instance at priority 4 with a 30-hour deadline. -/
theorem priority_multiplier_table_witness :
    priority_multiplier 4 = 1.0 ∧
    calculate_urgency_score (some 30) 4 = calculate_urgency_score (some 30) 2 :=
  ⟨(priority_multiplier_table 4 (some 30) (by decide) (by decide) (by decide)).2.2.2.1,
   (priority_multiplier_table 4 (some 30) (by decide) (by decide) (by decide)).2.2.2.2⟩

/-- C7 (counterexample): a store holding one fresh task satisfies the
two-way invariant, but after `mark_completed` the task has
`completed = true` while `status` is still `"Not Started"`, so the
invariant is broken: not every mutation keeps the two fields in sync. -/
theorem completed_status_sync_counterexample :
    completed_status_consistent [report_task] ∧
    ¬ completed_status_consistent (mark_completed [report_task] "Write report") := by
  constructor
  · decide
  · decide

/-- `mark_completed` preserves the one-way invariant. -/
theorem mark_completed_preserves_invariant (tasks : List Task) (title : String)
    (hinv : status_implies_completed tasks) :
    status_implies_completed (mark_completed tasks title) := by
  induction tasks with
  | nil => simpa [mark_completed] using hinv
  | cons a l ih =>
    have ha := hinv a (by simp)
    have hl : status_implies_completed l := fun u hu => hinv u (by simp [hu])
    by_cases hA : a.title = title
    · intro u hu
      simp only [mark_completed, if_pos hA, List.mem_cons] at hu
      rcases hu with rfl | hu
      · intro _; rfl
      · exact hl u hu
    · intro u hu
      simp only [mark_completed, if_neg hA, List.mem_cons] at hu
      rcases hu with rfl | hu
      · exact ha
      · exact ih hl u hu

/-- `update_task_status` preserves the one-way invariant for every new
status value. -/
theorem update_status_preserves_invariant (tasks : List Task) (title s : String)
    (hinv : status_implies_completed tasks) :
    status_implies_completed (update_task_status tasks title s) := by
  induction tasks with
  | nil => simpa [update_task_status] using hinv
  | cons a l ih =>
    have ha := hinv a (by simp)
    have hl : status_implies_completed l := fun u hu => hinv u (by simp [hu])
    by_cases hA : a.title = title
    · intro u hu
      simp only [update_task_status, if_pos hA, List.mem_cons] at hu
      rcases hu with rfl | hu
      · intro hs
        simp only at hs
        simp [hs]
      · exact hl u hu
    · intro u hu
      simp only [update_task_status, if_neg hA, List.mem_cons] at hu
      rcases hu with rfl | hu
      · exact ha
      · exact ih hl u hu

/-- C7 (amended): every mutation (append, completion, status update)
preserves the one-direction invariant `status = "Completed" →
completed = true`; the reverse direction is not maintained, because
`mark_completed` sets `completed` without touching `status`. -/
theorem mutations_preserve_status_implies_completed (tasks : List Task)
    (t : Task) (title s : String)
    (hinv : status_implies_completed tasks)
    (ht : t.status = "Completed" → t.completed = true) :
    status_implies_completed (add_task tasks t) ∧
    status_implies_completed (mark_completed tasks title) ∧
    status_implies_completed (update_task_status tasks title s) := by
  refine ⟨?_, mark_completed_preserves_invariant tasks title hinv,
    update_status_preserves_invariant tasks title s hinv⟩
  intro u hu
  simp only [add_task, List.mem_append, List.mem_singleton] at hu
  rcases hu with hu | rfl
  · exact hinv u hu
  · exact ht

/-- C7 (witness): the amended invariant at a concrete store, new task,
title, and status. -/
theorem mutations_preserve_invariant_witness :
    status_implies_completed [report_task] ∧
    status_implies_completed
      (update_task_status [report_task] "Write report" "In Progress") :=
  ⟨by decide,
   (mutations_preserve_status_implies_completed [report_task] report_task
      "Write report" "In Progress" (by decide) (by decide)).2.2⟩

/-- C8: on a title that matches some task (first match at index `i`),
`mark_completed` sets that task's `completed` to true and leaves its
`status` unchanged, while `update_task_status` with `"Completed"` sets both
fields. -/
theorem mark_completed_vs_update_status (tasks : List Task) (title : String)
    (i : Nat) (t : Task) (hfind : find_task_index tasks title = some i)
    (hget : tasks[i]? = some t) :
    (mark_completed tasks title)[i]? = some { t with completed := true } ∧
    (update_task_status tasks title "Completed")[i]? =
      some { t with completed := true, status := "Completed" } := by
  refine ⟨mark_completed_get tasks title i t hfind hget, ?_⟩
  have h := update_task_status_get tasks title "Completed" i t hfind hget
  simpa using h

/-- C8 (witness): the asymmetry on a concrete two-task store, matching the
second task. -/
theorem mark_completed_vs_update_status_witness :
    find_task_index [task_alpha, task_beta] "Beta" = some 1 ∧
    (mark_completed [task_alpha, task_beta] "Beta")[1]? =
      some { task_beta with completed := true } ∧
    (update_task_status [task_alpha, task_beta] "Beta" "Completed")[1]? =
      some { task_beta with completed := true, status := "Completed" } :=
  ⟨rfl,
   (mark_completed_vs_update_status [task_alpha, task_beta] "Beta" 1 task_beta
      rfl rfl).1,
   (mark_completed_vs_update_status [task_alpha, task_beta] "Beta" 1 task_beta
      rfl rfl).2⟩

/-- C9: deserializing the serialized record of any task reproduces every
persisted field value, and the transient `suggestion_reason` (absent from
the record) comes back as the constructor's `""`. -/
theorem to_dict_from_dict_round_trip (t : Task) :
    (Task.from_dict (Task.to_dict t)).title = t.title ∧
    (Task.from_dict (Task.to_dict t)).description = t.description ∧
    (Task.from_dict (Task.to_dict t)).deadline = t.deadline ∧
    (Task.from_dict (Task.to_dict t)).priority = t.priority ∧
    (Task.from_dict (Task.to_dict t)).mood_required = t.mood_required ∧
    (Task.from_dict (Task.to_dict t)).effort = t.effort ∧
    (Task.from_dict (Task.to_dict t)).difficulty = t.difficulty ∧
    (Task.from_dict (Task.to_dict t)).energy_required = t.energy_required ∧
    (Task.from_dict (Task.to_dict t)).completed = t.completed ∧
    (Task.from_dict (Task.to_dict t)).status = t.status ∧
    (Task.from_dict (Task.to_dict t)).suggestion_reason = "" :=
  ⟨rfl, rfl, rfl, rfl, rfl, rfl, rfl, rfl, rfl, rfl, rfl⟩

/-- C10: updating to any status other than `"Completed"` leaves every
task's `completed` flag unchanged, while the first matching task (if any)
gets the new status. -/
theorem update_status_non_completed_frame (tasks : List Task)
    (title s : String) (hs : s ≠ "Completed") :
    (update_task_status tasks title s).map Task.completed =
      tasks.map Task.completed ∧
    ∀ i t, find_task_index tasks title = some i → tasks[i]? = some t →
      (update_task_status tasks title s)[i]? = some { t with status := s } := by
  refine ⟨update_status_completed_frame tasks title s hs, ?_⟩
  intro i t hfind hget
  have h := update_task_status_get tasks title s i t hfind hget
  rwa [if_neg hs] at h

/-- C10 (witness): setting `"In Progress"` on a completed task changes its
status while `completed` stays true. -/
theorem update_status_non_completed_frame_witness :
    ("In Progress" : String) ≠ "Completed" ∧
    (update_task_status [task_done] "Gamma" "In Progress").map Task.completed =
      [task_done].map Task.completed ∧
    (update_task_status [task_done] "Gamma" "In Progress")[0]? =
      some { task_done with status := "In Progress" } :=
  ⟨by decide,
   (update_status_non_completed_frame [task_done] "Gamma" "In Progress"
      (by decide)).1,
   (update_status_non_completed_frame [task_done] "Gamma" "In Progress"
      (by decide)).2 0 task_done rfl rfl⟩

end SmartTodo
